import Mathlib

/-!
Shallow embedding of `src/app/screens/entry/entry.js` (the `Entry` screen of
the mattermost-mobile repository): the bootstrap sequencer that waits for
credential loading and store hydration, runs the post-hydration sequence,
issues the platform launch decision, and latches the rendered route.

External collaborators (`app/mattermost`, `app/push_notifications`, the redux
store) are not under `src/`; where their behaviour decides a property they are
modelled from the spec, and each such definition says so in its doc comment.
-/

namespace MattermostEntry

/-- A pending notification record, destructured by `handleNotification` in
entry.js as `{data, text, badge, completed}`. The `data` payload is opaque in
the source, so it is kept as a type parameter. -/
structure NotificationData (α : Type) where
  data : α
  text : String
  badge : Int
  completed : Bool
  deriving DecidableEq, Repr

/-- Modelled from the spec: the notification subsystem
(`app/push_notifications`, not under `src/`) exposes `getNotification()`
returning the queued cold-start notification or null and `resetNotification()`
clearing that held record; the process-wide `app` object (`app/mattermost`,
not under `src/`) caches a warm reply payload in `app.replyNotificationData`.
This state holds the two sources read by `handleNotification`. -/
structure NotifSources (α : Type) where
  pushNotification : Option (NotificationData α)
  replyNotificationData : Option (NotificationData α)
  deriving DecidableEq, Repr

/-- The record `handleNotification` operates on: the JavaScript expression
`notification || app.replyNotificationData`, where `notification` is the value
returned by `PushNotifications.getNotification()`. -/
def selectedNotification (s : NotifSources α) : Option (NotificationData α) :=
  match s.pushNotification with
  | some nd => some nd
  | none => s.replyNotificationData

/-- Result of one `handleNotification()` call: the updated notification state,
the queued-reply dispatches issued (argument tuples passed to
`onPushNotificationReply(data, text, badge, completed)`, in order), and the
number of `PushNotifications.resetNotification()` calls made. -/
structure NotifResult (α : Type) where
  state : NotifSources α
  dispatches : List (α × String × Int × Bool)
  resetCalls : Nat
  deriving DecidableEq, Repr

/-- Shallow embedding of `handleNotification` (entry.js lines 209-225): read
`PushNotifications.getNotification()`; when it or `app.replyNotificationData`
is non-null, take the first of the two, destructure `{data, text, badge,
completed}`, dispatch the queued reply only when `completed` is truthy, and
always call `PushNotifications.resetNotification()` afterwards — which clears
only the notification layer's held record, not the payload cached on `app`. -/
def handleNotification (s : NotifSources α) : NotifResult α :=
  match selectedNotification s with
  | none => ⟨s, [], 0⟩
  | some nd =>
      ⟨{ s with pushNotification := none },
        if nd.completed then [(nd.data, nd.text, nd.badge, nd.completed)] else [],
        1⟩

/-- Route latch flags held in the component's React state, initialized in the
constructor (entry.js 70-79) to `{launchLogin: false, launchChannel: false}`. -/
structure RouteFlags where
  launchLogin : Bool
  launchChannel : Bool
  deriving DecidableEq, Repr

/-- The flags at mount time. -/
def initialRouteFlags : RouteFlags := ⟨false, false⟩

/-- Routing events delivered by the event bus: `ViewTypes.LAUNCH_LOGIN` and
`ViewTypes.LAUNCH_CHANNEL`, each carrying the boolean flag the handler passes
on to the module-initialization hook (that hook does not touch the flags). -/
inductive RouteEvent where
  | launchLoginEvent (initModules : Bool)
  | launchChannelEvent (initModules : Bool)
  deriving DecidableEq, Repr

/-- Shallow embedding of `handleLaunchLogin` (entry.js 127-133): sets
`launchLogin: true`; the other flag is left as it is. -/
def handleLaunchLogin (s : RouteFlags) : RouteFlags :=
  { s with launchLogin := true }

/-- Shallow embedding of `handleLaunchChannel` (entry.js 135-141): sets
`launchChannel: true`; the other flag is left as it is. -/
def handleLaunchChannel (s : RouteFlags) : RouteFlags :=
  { s with launchChannel := true }

/-- Dispatch of one event-bus event to the registered handler. -/
def routeStep (s : RouteFlags) : RouteEvent → RouteFlags
  | .launchLoginEvent _ => handleLaunchLogin s
  | .launchChannelEvent _ => handleLaunchChannel s

/-- Delivery of a sequence of routing events. -/
def routeRun (s : RouteFlags) : List RouteEvent → RouteFlags
  | [] => s
  | e :: es => routeRun (routeStep s e) es

/-- Which of the three screens `render` selects. -/
inductive Route where
  | loading
  | login
  | channel
  deriving DecidableEq, Repr

/-- Shallow embedding of the screen choice in `render` (entry.js 266-319):
`this.state.launchLogin` is checked first, then `this.state.launchChannel`,
else the loading composite is rendered (its internal split between the themed
skeleton and the plain indicator is presentational and not modelled here). -/
def renderRoute (s : RouteFlags) : Route :=
  if s.launchLogin then Route.login
  else if s.launchChannel then Route.channel
  else Route.loading

theorem routeRun_login_mono (s : RouteFlags) (es : List RouteEvent)
    (h : s.launchLogin = true) : (routeRun s es).launchLogin = true := by
  induction es generalizing s with
  | nil => exact h
  | cons e es ih =>
      cases e with
      | launchLoginEvent b =>
          exact ih _ rfl
      | launchChannelEvent b =>
          exact ih _ h

theorem routeRun_channel_mono (s : RouteFlags) (es : List RouteEvent)
    (h : s.launchChannel = true) : (routeRun s es).launchChannel = true := by
  induction es generalizing s with
  | nil => exact h
  | cons e es ih =>
      cases e with
      | launchLoginEvent b =>
          exact ih _ h
      | launchChannelEvent b =>
          exact ih _ rfl

/-- Primitive effects of one `waitForHydration()` call: installing the store
subscription, removing it, and resolving the returned promise. -/
inductive WaitEffect where
  | subscribe
  | unsubscribe
  | resolve
  deriving DecidableEq, Repr

/-- The store-change callback installed by `waitForHydration` (entry.js
116-123), run once per store change notification: each element of the list is
the value of `store.getState().views.root.hydrationComplete` observed at one
notification; the callback returns without effect while the flag is false and
unsubscribes then resolves at the first true, after which it is never invoked
again. -/
def waitCallbackRun : List Bool → List WaitEffect
  | [] => []
  | c :: cs =>
      if c then [WaitEffect.unsubscribe, WaitEffect.resolve] else waitCallbackRun cs

/-- Shallow embedding of `waitForHydration` (entry.js 110-125) as the effect
trace it produces, given the hydration flag at call time and at each later
store change notification: if the store already reports hydration complete,
return an already-resolved promise; otherwise subscribe and hand control to
the callback. -/
def waitForHydration (current : Bool) (changes : List Bool) : List WaitEffect :=
  if current then [WaitEffect.resolve]
  else WaitEffect.subscribe :: waitCallbackRun changes

theorem waitCallbackRun_eq (changes : List Bool) :
    waitCallbackRun changes =
      if changes.any (fun c => c) then [WaitEffect.unsubscribe, WaitEffect.resolve]
      else [] := by
  induction changes with
  | nil => rfl
  | cons c cs ih => cases c <;> simp [waitCallbackRun, ih]

end MattermostEntry

namespace MattermostEntry

/-- C6: if the store already reports `hydrationComplete = true` when
`waitForHydration` is called, it resolves without ever subscribing; and when it
does subscribe, the first notification observed with the flag true unsubscribes
before resolving, so the trace is exactly `[subscribe, unsubscribe, resolve]`
on success and `[subscribe]` while hydration never completes — no subscription
outlives a successful resolution. -/
theorem waitForHydration_subscription_discipline (current : Bool) (changes : List Bool) :
    waitForHydration current changes =
      if current then [WaitEffect.resolve]
      else if changes.any (fun c => c) then
        [WaitEffect.subscribe, WaitEffect.unsubscribe, WaitEffect.resolve]
      else [WaitEffect.subscribe] := by
  cases current with
  | true => rfl
  | false =>
      cases hany : changes.any (fun c => c) <;>
        simp [waitForHydration, waitCallbackRun_eq, hany]

/-- C1 counterexample: the latch is not first-wins. Starting from the mount
state, a channel event renders CHANNEL, but a subsequent login event moves the
rendered route from CHANNEL to LOGIN, because `render` tests `launchLogin`
before `launchChannel` and the handlers set independent flags with no guard. -/
theorem renderRoute_channel_then_login_flips :
    renderRoute (routeRun initialRouteFlags [RouteEvent.launchChannelEvent false]) =
        Route.channel ∧
      renderRoute (routeRun initialRouteFlags
        [RouteEvent.launchChannelEvent false, RouteEvent.launchLoginEvent false]) =
        Route.login := by decide

/-- C1 amended: the latch is login-biased rather than first-wins. Once a
terminal screen is rendered the route never returns to LOADING, and afterwards
either the rendered route is unchanged or it is LOGIN; in particular once
LOGIN is rendered it is rendered forever, while a latched CHANNEL can still be
overridden by a later login event. -/
theorem renderRoute_terminal_login_biased (s : RouteFlags) (es : List RouteEvent)
    (h : renderRoute s ≠ Route.loading) :
    renderRoute (routeRun s es) ≠ Route.loading ∧
      (renderRoute (routeRun s es) = renderRoute s ∨
        renderRoute (routeRun s es) = Route.login) := by
  rcases hl : s.launchLogin with _ | _
  · rcases hc : s.launchChannel with _ | _
    · exact absurd (by simp [renderRoute, hl, hc]) h
    · have hc2 := routeRun_channel_mono s es hc
      rcases hl2 : (routeRun s es).launchLogin with _ | _
      · exact ⟨by simp [renderRoute, hl2, hc2], Or.inl (by simp [renderRoute, hl, hc, hl2, hc2])⟩
      · exact ⟨by simp [renderRoute, hl2], Or.inr (by simp [renderRoute, hl2])⟩
  · have hl2 := routeRun_login_mono s es hl
    exact ⟨by simp [renderRoute, hl2], Or.inr (by simp [renderRoute, hl2])⟩

/-- Witness for the amended C1 theorem at a concrete latched-CHANNEL state and
a login event. -/
theorem renderRoute_terminal_login_biased_witness :
    renderRoute (routeRun ⟨false, true⟩ [RouteEvent.launchLoginEvent false]) ≠ Route.loading ∧
      (renderRoute (routeRun ⟨false, true⟩ [RouteEvent.launchLoginEvent false]) =
          renderRoute ⟨false, true⟩ ∨
        renderRoute (routeRun ⟨false, true⟩ [RouteEvent.launchLoginEvent false]) =
          Route.login) :=
  renderRoute_terminal_login_biased ⟨false, true⟩ [RouteEvent.launchLoginEvent false]
    (by decide)

/-- C2: for every notification record selected by the resolver whose
`completed` field is true, `handleNotification` dispatches the queued reply
exactly once with exactly `(data, text, badge, true)` and calls
`resetNotification` exactly once. -/
theorem handleNotification_completed_dispatch (α : Type) (s : NotifSources α)
    (nd : NotificationData α) (hsel : selectedNotification s = some nd)
    (hc : nd.completed = true) :
    (handleNotification s).dispatches = [(nd.data, nd.text, nd.badge, true)] ∧
      (handleNotification s).resetCalls = 1 := by
  simp [handleNotification, hsel, hc]

/-- Witness for C2 at the record `{data: 0, text: "hi", badge: 3, completed:
true}` held by the notification layer. -/
theorem handleNotification_completed_dispatch_witness :
    (handleNotification (⟨some ⟨0, "hi", 3, true⟩, none⟩ : NotifSources Nat)).dispatches =
        [(0, "hi", 3, true)] ∧
      (handleNotification (⟨some ⟨0, "hi", 3, true⟩, none⟩ : NotifSources Nat)).resetCalls =
        1 :=
  handleNotification_completed_dispatch Nat ⟨some ⟨0, "hi", 3, true⟩, none⟩
    ⟨0, "hi", 3, true⟩ rfl rfl

/-- C3 counterexample: a record cached on `app.replyNotificationData` (with the
notification layer empty) is not removed by the call — `resetNotification`
clears only the notification layer — so a subsequent call selects the very same
record again and processes it again (its reset call fires again). This refutes
the part of the claim saying the record can never be processed again. -/
theorem handleNotification_cached_record_survives :
    (handleNotification (⟨none, some ⟨0, "t", 1, false⟩⟩ : NotifSources Nat)).dispatches =
        [] ∧
      (handleNotification (⟨none, some ⟨0, "t", 1, false⟩⟩ : NotifSources Nat)).resetCalls =
        1 ∧
      selectedNotification
          (handleNotification (⟨none, some ⟨0, "t", 1, false⟩⟩ : NotifSources Nat)).state =
        some ⟨0, "t", 1, false⟩ ∧
      (handleNotification
          (handleNotification
            (⟨none, some ⟨0, "t", 1, false⟩⟩ : NotifSources Nat)).state).resetCalls =
        1 := by decide

/-- C3 amended: for every selected record with `completed = false`, no reply is
dispatched, `resetNotification` is still called exactly once, and the
notification layer's slot ends empty — so a record held by the layer is never
selected again — but the payload cached on app state is left in place. -/
theorem handleNotification_incomplete_discarded (α : Type) (s : NotifSources α)
    (nd : NotificationData α) (hsel : selectedNotification s = some nd)
    (hc : nd.completed = false) :
    (handleNotification s).dispatches = [] ∧
      (handleNotification s).resetCalls = 1 ∧
      (handleNotification s).state.pushNotification = none ∧
      (handleNotification s).state.replyNotificationData = s.replyNotificationData := by
  simp [handleNotification, hsel, hc]

/-- Witness for the amended C3 theorem at an incomplete record held by the
notification layer. -/
theorem handleNotification_incomplete_discarded_witness :
    (handleNotification (⟨some ⟨0, "x", 0, false⟩, none⟩ : NotifSources Nat)).dispatches =
        [] ∧
      (handleNotification (⟨some ⟨0, "x", 0, false⟩, none⟩ : NotifSources Nat)).resetCalls =
        1 ∧
      (handleNotification
          (⟨some ⟨0, "x", 0, false⟩, none⟩ : NotifSources Nat)).state.pushNotification =
        none ∧
      (handleNotification
          (⟨some ⟨0, "x", 0, false⟩, none⟩ : NotifSources Nat)).state.replyNotificationData =
        (⟨some ⟨0, "x", 0, false⟩, none⟩ : NotifSources Nat).replyNotificationData :=
  handleNotification_incomplete_discarded Nat ⟨some ⟨0, "x", 0, false⟩, none⟩
    ⟨0, "x", 0, false⟩ rfl rfl

/-- C10: when the notification layer holds nothing and no reply payload is
cached on app state, `handleNotification` is a pure no-op: no dispatch, no
reset call, state unchanged. -/
theorem handleNotification_no_sources_noop (α : Type) (s : NotifSources α)
    (h1 : s.pushNotification = none) (h2 : s.replyNotificationData = none) :
    handleNotification s = ⟨s, [], 0⟩ := by
  simp [handleNotification, selectedNotification, h1, h2]

/-- Witness for C10 at the empty notification state. -/
theorem handleNotification_no_sources_noop_witness :
    handleNotification (⟨none, none⟩ : NotifSources Nat) =
      ⟨(⟨none, none⟩ : NotifSources Nat), [], 0⟩ :=
  handleNotification_no_sources_noop Nat ⟨none, none⟩ rfl rfl

/-- Immutable inputs of one bootstrap run: the component props read during the
post-hydration sequence (entry.js 57-68) and the platform values read when the
launch decision is issued (`Platform.OS` and `AppState.currentState`). -/
structure EntryConfig where
  enableTimezone : Bool
  deviceTimezone : String
  sidebarHeaderBg : String
  sidebarHeaderTextColor : String
  centerChannelBg : String
  osFamily : String
  appStateCurrent : String
  deriving DecidableEq, Repr

/-- Modelled from the spec: the slice of the process-wide `app` object
(`app/mattermost`, not under `src/`) and of the notification layer that the
bootstrap reads or writes — the known device push token, the persisted toolbar
background color (absent on a first start), the two notification sources, and
the deferred-relaunch instruction consumed by the external app-lifecycle
watcher. Fields of `app` never read by the embedded logic are omitted. -/
structure AppGlobals (α : Type) where
  deviceToken : Option String
  toolbarBackground : Option String
  notif : NotifSources α
  shouldRelaunchWhenActive : Bool
  deriving DecidableEq, Repr

/-- Observable external calls made during bootstrap, in program order. -/
inductive Effect (α : Type) where
  | setUserAgent
  | storeSubscribe
  | storeUnsubscribe
  | autoUpdateTimezoneCall (tz : String)
  | setDeviceTokenCall (tok : String)
  | setStartupThemesCall (headerBg headerText centerBg : String)
  | dispatchReply (data : α) (text : String) (badge : Int) (completed : Bool)
  | resetPushNotification
  | setSystemEmojisCall
  | launchApp
  | setShouldRelaunchWhenActiveCall
  | configurePushCall
  | fieldUnsubscribe
  deriving DecidableEq, Repr

/-- Shallow embedding of `autoUpdateTimezone` (entry.js 169-181): dispatch only
when the timezone feature flag is enabled. -/
def autoUpdateTimezone (cfg : EntryConfig) : List (Effect α) :=
  if cfg.enableTimezone then [Effect.autoUpdateTimezoneCall cfg.deviceTimezone] else []

/-- Shallow embedding of `setDeviceToken` (entry.js 188-194): dispatch only
when a device push token is already known on `app`. -/
def setDeviceToken (app : AppGlobals α) : List (Effect α) :=
  match app.deviceToken with
  | some tok => [Effect.setDeviceTokenCall tok]
  | none => []

/-- The guard of `setStartupThemes`: the JavaScript comparison
`app.toolbarBackground === theme.sidebarHeaderBg`, where a missing persisted
color never equals a string. -/
def toolbarMatchesTheme (cfg : EntryConfig) (app : AppGlobals α) : Bool :=
  match app.toolbarBackground with
  | some c => c == cfg.sidebarHeaderBg
  | none => false

/-- Shallow embedding of `setStartupThemes` (entry.js 196-207): skip when the
persisted toolbar background already equals the incoming header color, else
persist the three theme colors into `app`. The update of
`app.toolbarBackground` is modelled from the spec, `app.setStartupThemes`
being external. -/
def setStartupThemes (cfg : EntryConfig) (app : AppGlobals α) :
    AppGlobals α × List (Effect α) :=
  if toolbarMatchesTheme cfg app then (app, [])
  else
    ({ app with toolbarBackground := some cfg.sidebarHeaderBg },
      [Effect.setStartupThemesCall cfg.sidebarHeaderBg cfg.sidebarHeaderTextColor
        cfg.centerChannelBg])

/-- The `this.handleNotification()` call inside `handleHydrationComplete`: run
the resolver on the two notification sources and emit its external calls in
program order — the dispatch, when any, precedes the reset. The promise the
resolver returns is discarded by the caller. -/
def handleNotificationStep (app : AppGlobals α) : AppGlobals α × List (Effect α) :=
  let r := handleNotification app.notif
  ({ app with notif := r.state },
    r.dispatches.map (fun d => Effect.dispatchReply d.1 d.2.1 d.2.2.1 d.2.2.2) ++
      List.replicate r.resetCalls Effect.resetPushNotification)

/-- Shallow embedding of `loadSystemEmojis` (entry.js 242-245): unconditional
registration of the static emoji table. -/
def loadSystemEmojis : List (Effect α) := [Effect.setSystemEmojisCall]

/-- Shallow embedding of `launchForAndroid` (entry.js 227-229). -/
def launchForAndroid : List (Effect α) := [Effect.launchApp]

/-- Shallow embedding of `launchForiOS` (entry.js 231-240): when
`AppState.currentState` is not `active`, record the deferred-relaunch
instruction on `app` (the write is modelled from the spec, the setter being
external) and do not launch; otherwise launch immediately. -/
def launchForiOS (cfg : EntryConfig) (app : AppGlobals α) :
    AppGlobals α × List (Effect α) :=
  let appNotActive := cfg.appStateCurrent ≠ "active"
  if appNotActive then
    ({ app with shouldRelaunchWhenActive := true },
      [Effect.setShouldRelaunchWhenActiveCall])
  else (app, [Effect.launchApp])

/-- The platform dispatch at the end of `launchWhenReady` (entry.js 103-107). -/
def launchDecision (cfg : EntryConfig) (app : AppGlobals α) :
    AppGlobals α × List (Effect α) :=
  if cfg.osFamily = "android" then (app, launchForAndroid)
  else launchForiOS cfg app

/-- The in-flight state of one mounted `Entry` component plus the globals it
touches: whether each prerequisite promise has resolved, whether the
`waitForHydration` subscription is currently installed, and the instance field
`this.unsubscribeFromStore` (true when it holds a function rather than null). -/
structure EntryState (α : Type) where
  app : AppGlobals α
  credDone : Bool
  hydDone : Bool
  subActive : Bool
  unsubscribeFromStore : Bool
  deriving DecidableEq, Repr

/-- Shallow embedding of `handleHydrationComplete` (entry.js 156-167): first
the guard on `this.unsubscribeFromStore`, then the five post-hydration steps in
source order — timezone auto-update, device-token registration, theme
snapshot, notification-reply resolution, emoji-table load. -/
def handleHydrationComplete (cfg : EntryConfig) (s : EntryState α) :
    EntryState α × List (Effect α) :=
  let guardEffs := if s.unsubscribeFromStore then [Effect.fieldUnsubscribe] else []
  let s0 := if s.unsubscribeFromStore then { s with unsubscribeFromStore := false } else s
  let themed := setStartupThemes cfg s0.app
  let notified := handleNotificationStep themed.1
  ({ s0 with app := notified.1 },
    guardEffs ++ autoUpdateTimezone cfg ++ setDeviceToken s0.app ++ themed.2 ++
      notified.2 ++ loadSystemEmojis)

/-- The continuation of `launchWhenReady` (entry.js 95-108) once `Promise.all`
resolves: `handleHydrationComplete`, then the platform launch decision. -/
def postHydration (cfg : EntryConfig) (s : EntryState α) :
    EntryState α × List (Effect α) :=
  let handled := handleHydrationComplete cfg s
  let launched := launchDecision cfg handled.1.app
  ({ handled.1 with app := launched.1 }, handled.2 ++ launched.2)

/-- The effect block produced by one post-hydration run over globals `app`,
with the instance field null — as it always is in a reachable state. -/
def postHydrationEffects (cfg : EntryConfig) (app : AppGlobals α) : List (Effect α) :=
  (postHydration cfg ⟨app, true, true, false, false⟩).2

/-- Environment events driving the asynchronous part of the bootstrap: the
credential-load promise resolving, a store change notification carrying the
current `hydrationComplete` flag, and the settlement (successful or failed) of
the queued-reply dispatch promise — on which the source installs no
continuation whatsoever. -/
inductive EnvEvent where
  | credentialsResolved
  | storeChange (hydrationComplete : Bool)
  | replyDispatchSettled (failed : Bool)
  deriving DecidableEq, Repr

/-- One environment event processed against a mounted component. A settled
promise cannot resolve a second time, so a duplicate `credentialsResolved` is
ignored; a store notification reaches the `waitForHydration` callback only
while that subscription is installed, and the callback unsubscribes before it
resolves; nothing in the file ever waits on the reply-dispatch promise, so its
settlement reaches no continuation at all. -/
def envStep (cfg : EntryConfig) (s : EntryState α) :
    EnvEvent → EntryState α × List (Effect α)
  | .credentialsResolved =>
      if s.credDone then (s, [])
      else
        let s1 := { s with credDone := true }
        if s1.hydDone then postHydration cfg s1 else (s1, [])
  | .storeChange hyd =>
      if s.subActive then
        if hyd then
          let s1 := { s with subActive := false, hydDone := true }
          if s1.credDone then
            ((postHydration cfg s1).1,
              Effect.storeUnsubscribe :: (postHydration cfg s1).2)
          else (s1, [Effect.storeUnsubscribe])
        else (s, [])
      else (s, [])
  | .replyDispatchSettled _ => (s, [])

/-- A sequence of environment events processed in order. -/
def envRun (cfg : EntryConfig) :
    EntryState α → List EnvEvent → EntryState α × List (Effect α)
  | s, [] => (s, [])
  | s, e :: es =>
      ((envRun cfg (envStep cfg s e).1 es).1,
        (envStep cfg s e).2 ++ (envRun cfg (envStep cfg s e).1 es).2)

/-- Shallow embedding of `componentDidMount` (entry.js 81-88): set the client
user agent, then start `launchWhenReady`, whose synchronous prefix starts the
credential load and calls `waitForHydration` — which subscribes exactly when
the store is not yet hydrated. The event-bus listener registration for the
Router is modelled separately by `routeRun`. -/
def componentDidMount (hyd0 : Bool) (app0 : AppGlobals α) :
    EntryState α × List (Effect α) :=
  if hyd0 then
    (⟨app0, false, true, false, false⟩, [Effect.setUserAgent])
  else
    (⟨app0, false, false, true, false⟩, [Effect.setUserAgent, Effect.storeSubscribe])

/-- A whole bootstrap run: mount, then the environment events in order. -/
def bootRun (cfg : EntryConfig) (hyd0 : Bool) (app0 : AppGlobals α)
    (es : List EnvEvent) : EntryState α × List (Effect α) :=
  ((envRun cfg (componentDidMount hyd0 app0).1 es).1,
    (componentDidMount hyd0 app0).2 ++
      (envRun cfg (componentDidMount hyd0 app0).1 es).2)

/-- True when the credential-load promise resolves within the event list. -/
def credResolvedIn (es : List EnvEvent) : Bool :=
  es.any fun e =>
    match e with
    | .credentialsResolved => true
    | _ => false

/-- True when some store notification in the event list reports hydration. -/
def hydTrueIn (es : List EnvEvent) : Bool :=
  es.any fun e =>
    match e with
    | .storeChange true => true
    | _ => false

/-- True when both `Promise.all` prerequisites resolve during the run. -/
def bothResolved (hyd0 : Bool) (es : List EnvEvent) : Bool :=
  credResolvedIn es && (hyd0 || hydTrueIn es)

/-- True for the settlement events of the reply-dispatch promise. -/
def isReplySettled : EnvEvent → Bool
  | .replyDispatchSettled _ => true
  | _ => false

/-- Shallow embedding of `listenForHydration` (entry.js 143-154). No call site
for it exists anywhere in the file — nothing registers it with the store or
invokes it — so no transition of `envStep` or `componentDidMount` ever reaches
it; it is embedded only to record what it would do. The flag
`app.isNotificationsConfigured` it reads is a further field of the external
`app` object and is passed in directly. -/
def listenForHydration (cfg : EntryConfig) (isNotifConfigured : Bool)
    (hydrationComplete : Bool) (s : EntryState α) : EntryState α × List (Effect α) :=
  let cfgEffs := if isNotifConfigured then [] else [Effect.configurePushCall]
  if hydrationComplete then
    ((handleHydrationComplete cfg s).1, cfgEffs ++ (handleHydrationComplete cfg s).2)
  else (s, cfgEffs)

theorem postHydration_state (cfg : EntryConfig) (s : EntryState α)
    (hu : s.unsubscribeFromStore = false) :
    (postHydration cfg s).2 = postHydrationEffects cfg s.app ∧
      (postHydration cfg s).1.credDone = s.credDone ∧
      (postHydration cfg s).1.hydDone = s.hydDone ∧
      (postHydration cfg s).1.subActive = s.subActive ∧
      (postHydration cfg s).1.unsubscribeFromStore = false := by
  simp [postHydration, handleHydrationComplete, postHydrationEffects, hu]

theorem credResolvedIn_cons_cred (es : List EnvEvent) :
    credResolvedIn (EnvEvent.credentialsResolved :: es) = true := by
  simp [credResolvedIn]

theorem credResolvedIn_cons_store (h : Bool) (es : List EnvEvent) :
    credResolvedIn (EnvEvent.storeChange h :: es) = credResolvedIn es := by
  simp [credResolvedIn]

theorem credResolvedIn_cons_settled (b : Bool) (es : List EnvEvent) :
    credResolvedIn (EnvEvent.replyDispatchSettled b :: es) = credResolvedIn es := by
  simp [credResolvedIn]

theorem hydTrueIn_cons_cred (es : List EnvEvent) :
    hydTrueIn (EnvEvent.credentialsResolved :: es) = hydTrueIn es := by
  simp [hydTrueIn]

theorem hydTrueIn_cons_store (h : Bool) (es : List EnvEvent) :
    hydTrueIn (EnvEvent.storeChange h :: es) = (h || hydTrueIn es) := by
  cases h <;> simp [hydTrueIn]

theorem hydTrueIn_cons_settled (b : Bool) (es : List EnvEvent) :
    hydTrueIn (EnvEvent.replyDispatchSettled b :: es) = hydTrueIn es := by
  simp [hydTrueIn]

theorem envRun_idle (cfg : EntryConfig) (s : EntryState α) (es : List EnvEvent)
    (hc : s.credDone = true) (hs : s.subActive = false) :
    envRun cfg s es = (s, []) := by
  induction es with
  | nil => rfl
  | cons e es ih =>
      cases e with
      | credentialsResolved => simp [envRun, envStep, hc, ih]
      | storeChange hyd => simp [envRun, envStep, hs, ih]
      | replyDispatchSettled b => simp [envRun, envStep, ih]

theorem envRun_waiting (cfg : EntryConfig) (s : EntryState α) (es : List EnvEvent)
    (hu : s.unsubscribeFromStore = false)
    (hsub : s.subActive = !s.hydDone)
    (hnb : (s.credDone && s.hydDone) = false) :
    (envRun cfg s es).2 =
      (if !s.hydDone && hydTrueIn es then [Effect.storeUnsubscribe] else []) ++
        (if (s.credDone || credResolvedIn es) && (s.hydDone || hydTrueIn es) then
          postHydrationEffects cfg s.app
        else []) := by
  induction es generalizing s with
  | nil => simp [envRun, credResolvedIn, hydTrueIn, hnb]
  | cons e es ih =>
      obtain ⟨app, cd, hd, sa, u⟩ := s
      have hu2 : u = false := hu
      have hsub2 : sa = !hd := hsub
      have hnb2 : (cd && hd) = false := hnb
      subst hu2
      cases hd with
      | true =>
          have hsa : sa = false := by simpa using hsub2
          have hcd : cd = false := by simpa using hnb2
          subst hsa; subst hcd
          cases e with
          | credentialsResolved =>
              have hpost := postHydration_state cfg
                (⟨app, true, true, false, false⟩ : EntryState α) rfl
              have hidle := envRun_idle cfg
                (postHydration cfg (⟨app, true, true, false, false⟩ : EntryState α)).1 es
                (by simp [hpost.2.1]) (by simp [hpost.2.2.2.1])
              simp [envRun, envStep, credResolvedIn_cons_cred, hydTrueIn_cons_cred,
                hidle, hpost.1]
          | storeChange hyd =>
              have hrec := ih (⟨app, false, true, false, false⟩ : EntryState α) rfl
                (by simp) (by simp)
              simp [envRun, envStep, credResolvedIn_cons_store, hydTrueIn_cons_store, hrec]
          | replyDispatchSettled b =>
              have hrec := ih (⟨app, false, true, false, false⟩ : EntryState α) rfl
                (by simp) (by simp)
              simp [envRun, envStep, credResolvedIn_cons_settled, hydTrueIn_cons_settled,
                hrec]
      | false =>
          have hsa : sa = true := by simpa using hsub2
          subst hsa
          cases cd with
          | true =>
              cases e with
              | credentialsResolved =>
                  have hrec := ih (⟨app, true, false, true, false⟩ : EntryState α) rfl
                    (by simp) (by simp)
                  simp [envRun, envStep, credResolvedIn_cons_cred, hydTrueIn_cons_cred,
                    hrec]
              | storeChange hyd =>
                  cases hyd with
                  | true =>
                      have hpost := postHydration_state cfg
                        (⟨app, true, true, false, false⟩ : EntryState α) rfl
                      have hidle := envRun_idle cfg
                        (postHydration cfg
                          (⟨app, true, true, false, false⟩ : EntryState α)).1 es
                        (by simp [hpost.2.1]) (by simp [hpost.2.2.2.1])
                      simp [envRun, envStep, credResolvedIn_cons_store,
                        hydTrueIn_cons_store, hidle, hpost.1]
                  | false =>
                      have hrec := ih (⟨app, true, false, true, false⟩ : EntryState α) rfl
                        (by simp) (by simp)
                      simp [envRun, envStep, credResolvedIn_cons_store,
                        hydTrueIn_cons_store, hrec]
              | replyDispatchSettled b =>
                  have hrec := ih (⟨app, true, false, true, false⟩ : EntryState α) rfl
                    (by simp) (by simp)
                  simp [envRun, envStep, credResolvedIn_cons_settled,
                    hydTrueIn_cons_settled, hrec]
          | false =>
              cases e with
              | credentialsResolved =>
                  have hrec := ih (⟨app, true, false, true, false⟩ : EntryState α) rfl
                    (by simp) (by simp)
                  simp [envRun, envStep, credResolvedIn_cons_cred, hydTrueIn_cons_cred,
                    hrec]
              | storeChange hyd =>
                  cases hyd with
                  | true =>
                      have hrec := ih (⟨app, false, true, false, false⟩ : EntryState α) rfl
                        (by simp) (by simp)
                      simp [envRun, envStep, credResolvedIn_cons_store,
                        hydTrueIn_cons_store, hrec]
                  | false =>
                      have hrec := ih (⟨app, false, false, true, false⟩ : EntryState α) rfl
                        (by simp) (by simp)
                      simp [envRun, envStep, credResolvedIn_cons_store,
                        hydTrueIn_cons_store, hrec]
              | replyDispatchSettled b =>
                  have hrec := ih (⟨app, false, false, true, false⟩ : EntryState α) rfl
                    (by simp) (by simp)
                  simp [envRun, envStep, credResolvedIn_cons_settled,
                    hydTrueIn_cons_settled, hrec]

theorem bootRun_trace_eq (cfg : EntryConfig) (hyd0 : Bool) (app0 : AppGlobals α)
    (es : List EnvEvent) :
    (bootRun cfg hyd0 app0 es).2 =
      [Effect.setUserAgent] ++
        (if hyd0 then [] else [Effect.storeSubscribe]) ++
        (if !hyd0 && hydTrueIn es then [Effect.storeUnsubscribe] else []) ++
        (if bothResolved hyd0 es then postHydrationEffects cfg app0 else []) := by
  cases hyd0 with
  | true =>
      have h := envRun_waiting cfg (⟨app0, false, true, false, false⟩ : EntryState α) es
        rfl (by simp) (by simp)
      simp [bootRun, componentDidMount, bothResolved, h]
  | false =>
      have h := envRun_waiting cfg (⟨app0, false, false, true, false⟩ : EntryState α) es
        rfl (by simp) (by simp)
      simp [bootRun, componentDidMount, bothResolved, h]

/-- True for the effects emitted only by the five post-hydration steps and the
launch decision following them; false for the mount and subscription
housekeeping effects, for the call reachable only from the dead
`listenForHydration`, and for the unsubscribe the never-taken guard of
`handleHydrationComplete` would make. -/
def isPostHydrationEffect : Effect α → Bool
  | .setUserAgent => false
  | .storeSubscribe => false
  | .storeUnsubscribe => false
  | .configurePushCall => false
  | .fieldUnsubscribe => false
  | _ => true

theorem postHydrationEffects_mem_emoji (cfg : EntryConfig) (app : AppGlobals α) :
    Effect.setSystemEmojisCall ∈ postHydrationEffects cfg app := by
  simp [postHydrationEffects, postHydration, handleHydrationComplete, loadSystemEmojis]

theorem postHydrationEffects_any_post (cfg : EntryConfig) (app : AppGlobals α) :
    (postHydrationEffects cfg app).any isPostHydrationEffect = true :=
  List.any_eq_true.mpr ⟨Effect.setSystemEmojisCall,
    postHydrationEffects_mem_emoji cfg app, rfl⟩

theorem envStep_field_false (cfg : EntryConfig) (s : EntryState α) (e : EnvEvent)
    (hu : s.unsubscribeFromStore = false) :
    (envStep cfg s e).1.unsubscribeFromStore = false := by
  obtain ⟨app, cd, hd, sa, u⟩ := s
  have hu2 : u = false := hu
  subst hu2
  cases e with
  | credentialsResolved =>
      cases cd with
      | true => simp [envStep]
      | false =>
          cases hd with
          | false => simp [envStep]
          | true =>
              have hps := (postHydration_state cfg
                (⟨app, true, true, sa, false⟩ : EntryState α) rfl).2.2.2.2
              simp [envStep, hps]
  | storeChange hyd =>
      cases sa with
      | false => simp [envStep]
      | true =>
          cases hyd with
          | false => simp [envStep]
          | true =>
              cases cd with
              | false => simp [envStep]
              | true =>
                  have hps := (postHydration_state cfg
                    (⟨app, true, true, false, false⟩ : EntryState α) rfl).2.2.2.2
                  simp [envStep, hps]
  | replyDispatchSettled b => simp [envStep]

theorem envRun_field_false (cfg : EntryConfig) (s : EntryState α) (es : List EnvEvent)
    (hu : s.unsubscribeFromStore = false) :
    (envRun cfg s es).1.unsubscribeFromStore = false := by
  induction es generalizing s with
  | nil => exact hu
  | cons e es ih => exact ih _ (envStep_field_false cfg s e hu)

theorem postHydrationEffects_post (cfg : EntryConfig) (app : AppGlobals α) :
    ∀ x ∈ postHydrationEffects cfg app, isPostHydrationEffect x = true := by
  have h1 : ∀ x ∈ (autoUpdateTimezone cfg : List (Effect α)),
      isPostHydrationEffect x = true := by
    unfold autoUpdateTimezone
    split_ifs <;> simp [isPostHydrationEffect]
  have h2 : ∀ (g : AppGlobals α), ∀ x ∈ setDeviceToken g,
      isPostHydrationEffect x = true := by
    intro g
    unfold setDeviceToken
    rcases g.deviceToken with _ | tok <;> simp [isPostHydrationEffect]
  have h3 : ∀ (g : AppGlobals α), ∀ x ∈ (setStartupThemes cfg g).2,
      isPostHydrationEffect x = true := by
    intro g
    unfold setStartupThemes
    split_ifs <;> simp [isPostHydrationEffect]
  have h4 : ∀ (g : AppGlobals α), ∀ x ∈ (handleNotificationStep g).2,
      isPostHydrationEffect x = true := by
    intro g
    unfold handleNotificationStep
    simp only [List.mem_append, List.mem_map, List.mem_replicate]
    rintro x (⟨d, hd, rfl⟩ | ⟨hn, rfl⟩) <;> simp [isPostHydrationEffect]
  have h5 : ∀ x ∈ (loadSystemEmojis : List (Effect α)),
      isPostHydrationEffect x = true := by
    simp [loadSystemEmojis, isPostHydrationEffect]
  have h6 : ∀ (g : AppGlobals α), ∀ x ∈ (launchDecision cfg g).2,
      isPostHydrationEffect x = true := by
    intro g x hx
    by_cases ho : cfg.osFamily = "android" <;>
      by_cases ha : cfg.appStateCurrent = "active" <;>
        simp [launchDecision, launchForAndroid, launchForiOS, ho, ha] at hx <;>
          subst hx <;> rfl
  intro x hx
  simp only [postHydrationEffects, postHydration, handleHydrationComplete] at hx
  simp [List.mem_append] at hx
  rcases hx with hx | hx | hx | hx | hx | hx
  · exact h1 x hx
  · exact h2 _ x hx
  · exact h3 _ x hx
  · exact h4 _ x hx
  · exact h5 x hx
  · exact h6 _ x hx

theorem postHydrationEffects_no_dead (cfg : EntryConfig) (app : AppGlobals α) :
    Effect.fieldUnsubscribe ∉ postHydrationEffects cfg app ∧
      Effect.configurePushCall ∉ postHydrationEffects cfg app := by
  constructor <;> intro hx <;>
    simpa [isPostHydrationEffect] using postHydrationEffects_post cfg app _ hx

theorem envRun_filter_settled (cfg : EntryConfig) (s : EntryState α)
    (es : List EnvEvent) :
    envRun cfg s (es.filter fun e => !isReplySettled e) = envRun cfg s es := by
  induction es generalizing s with
  | nil => rfl
  | cons e es ih =>
      cases e with
      | credentialsResolved =>
          have hf : List.filter (fun e => !isReplySettled e)
              (EnvEvent.credentialsResolved :: es) =
              EnvEvent.credentialsResolved ::
                List.filter (fun e => !isReplySettled e) es := rfl
          rw [hf]
          simp only [envRun]
          rw [ih]
      | storeChange h =>
          have hf : List.filter (fun e => !isReplySettled e)
              (EnvEvent.storeChange h :: es) =
              EnvEvent.storeChange h ::
                List.filter (fun e => !isReplySettled e) es := rfl
          rw [hf]
          simp only [envRun]
          rw [ih]
      | replyDispatchSettled b =>
          have hf : List.filter (fun e => !isReplySettled e)
              (EnvEvent.replyDispatchSettled b :: es) =
              List.filter (fun e => !isReplySettled e) es := rfl
          rw [hf, ih]
          simp [envRun, envStep]

/-- A concrete configuration: timezone feature off, no theme change pending,
the foreground-dependent platform family, process currently active. -/
def sampleConfig : EntryConfig :=
  ⟨false, "UTC", "#111", "#fff", "#222", "ios", "active"⟩

/-- Concrete globals: no device token, persisted toolbar color matching the
incoming header color, a completed notification queued at the layer, no warm
cached reply, no deferred-relaunch instruction. -/
def sampleApp : AppGlobals Nat :=
  ⟨none, some "#111", ⟨some ⟨7, "hi", 3, true⟩, none⟩, false⟩

/-- C4: a post-hydration effect appears in the trace exactly when both
prerequisites — the credential load and the hydration wait — resolve during
the run. Quantification over every event list covers every prefix of every
run, so resolution of only one of the two is never enough for the sequence to
begin. -/
theorem postHydration_iff_both_prereqs (α : Type) (cfg : EntryConfig) (hyd0 : Bool)
    (app0 : AppGlobals α) (es : List EnvEvent) :
    ((bootRun cfg hyd0 app0 es).2.any isPostHydrationEffect) =
      bothResolved hyd0 es := by
  rw [bootRun_trace_eq]
  cases hb : bothResolved hyd0 es <;> cases hyd0 <;> cases hht : hydTrueIn es <;>
    simp [List.any_append, isPostHydrationEffect, hb, hht,
      postHydrationEffects_any_post]

/-- C5: the full effect trace of a bootstrap run is exactly the mount effect,
the subscription housekeeping, and — exactly when both prerequisites resolve —
one contiguous copy of the post-hydration block, which lists the five steps in
the fixed source order (timezone, device token, theme snapshot, notification
reply, emoji table) followed by the launch decision. However many further
store change notifications fire after hydration, they contribute nothing, so
the sequence runs exactly once per process lifetime. -/
theorem bootRun_post_hydration_once (α : Type) (cfg : EntryConfig) (hyd0 : Bool)
    (app0 : AppGlobals α) (es : List EnvEvent) :
    (bootRun cfg hyd0 app0 es).2 =
      [Effect.setUserAgent] ++
        (if hyd0 then [] else [Effect.storeSubscribe]) ++
        (if !hyd0 && hydTrueIn es then [Effect.storeUnsubscribe] else []) ++
        (if bothResolved hyd0 es then postHydrationEffects cfg app0 else []) :=
  bootRun_trace_eq cfg hyd0 app0 es

/-- C7: on the platform family where the launch decision is
foreground-dependent (every one other than android), the decision produces
exactly one effect: the immediate launch exactly when the process is active,
and the recording of the deferred-relaunch instruction exactly when it is
not. -/
theorem launchDecision_foreground_split (α : Type) (cfg : EntryConfig)
    (app : AppGlobals α) (hos : cfg.osFamily ≠ "android") :
    (Effect.launchApp ∈ (launchDecision cfg app).2 ↔
        cfg.appStateCurrent = "active") ∧
      (Effect.setShouldRelaunchWhenActiveCall ∈ (launchDecision cfg app).2 ↔
        ¬cfg.appStateCurrent = "active") ∧
      ((launchDecision cfg app).2).length = 1 := by
  by_cases h : cfg.appStateCurrent = "active" <;>
    simp [launchDecision, launchForiOS, hos, h]

/-- Witness for C7 on the sample configuration (family ios, currently
active). -/
theorem launchDecision_foreground_split_witness :
    (Effect.launchApp ∈ (launchDecision sampleConfig sampleApp).2 ↔
        sampleConfig.appStateCurrent = "active") ∧
      (Effect.setShouldRelaunchWhenActiveCall ∈
          (launchDecision sampleConfig sampleApp).2 ↔
        ¬sampleConfig.appStateCurrent = "active") ∧
      ((launchDecision sampleConfig sampleApp).2).length = 1 :=
  launchDecision_foreground_split Nat sampleConfig sampleApp (by decide)

/-- C8 counterexample: a concrete run in which a completed notification is
dispatched but the dispatch promise never settles — the environment delivers
no settlement event at all — and the orchestrator nevertheless completes the
emoji-table load and the launch decision in the same step. The caller does not
wait for the reply dispatch to settle; the promise is detached. -/
theorem bootRun_completes_without_reply_settlement :
    (bootRun sampleConfig true sampleApp [EnvEvent.credentialsResolved]).2 =
        [Effect.setUserAgent, Effect.dispatchReply 7 "hi" 3 true,
          Effect.resetPushNotification, Effect.setSystemEmojisCall,
          Effect.launchApp] ∧
      ([EnvEvent.credentialsResolved].any isReplySettled) = false := by
  constructor
  · decide
  · decide

/-- C8 amended: the reply-dispatch path is invoked but not awaited — neither
`handleNotification` nor `handleHydrationComplete` waits on its promise — so a
whole bootstrap run (final state and trace) is unchanged if every settlement
event of that promise is deleted from the environment: a dispatch failure does
not propagate through the caller; the dispatch is fire-and-forget. -/
theorem bootRun_ignores_reply_settlement (α : Type) (cfg : EntryConfig)
    (hyd0 : Bool) (app0 : AppGlobals α) (es : List EnvEvent) :
    bootRun cfg hyd0 app0 (es.filter fun e => !isReplySettled e) =
      bootRun cfg hyd0 app0 es := by
  simp [bootRun, envRun_filter_settled]

/-- C9: in every run, the effect of `configurePushNotifications` (reachable
only through `listenForHydration`, which no code path calls) never appears in
the trace; the instance field `this.unsubscribeFromStore` stays null for the
whole process lifetime, so the guard at the start of
`handleHydrationComplete` never executes its body and its unsubscribe call
never appears either. -/
theorem bootRun_dead_listener (α : Type) (cfg : EntryConfig) (hyd0 : Bool)
    (app0 : AppGlobals α) (es : List EnvEvent) :
    (bootRun cfg hyd0 app0 es).1.unsubscribeFromStore = false ∧
      Effect.fieldUnsubscribe ∉ (bootRun cfg hyd0 app0 es).2 ∧
      Effect.configurePushCall ∉ (bootRun cfg hyd0 app0 es).2 := by
  refine ⟨?_, ?_, ?_⟩
  · cases hyd0 <;> exact envRun_field_false cfg _ es rfl
  · rw [bootRun_trace_eq]
    have hnd := (postHydrationEffects_no_dead cfg app0).1
    split_ifs <;> simp [hnd]
  · rw [bootRun_trace_eq]
    have hnd := (postHydrationEffects_no_dead cfg app0).2
    split_ifs <;> simp [hnd]

end MattermostEntry
